import Mathlib

/-!
Shallow embedding of the usbtmc oscilloscope capture scripts
(`acquire.py`, `acquire_pyvisa.py`, `acquire_ag.py`).

Modelling conventions: raw bytes are `Nat` values (0–255), int8 sample
codes are `Int`, and the floating-point scale arithmetic of the scripts is
idealised as exact rational (`ℚ`) arithmetic.  The per-iteration behaviour
of the acquisition loops is modelled as a fuel-indexed recursion that emits
an event trace together with the list of published capture results; the
fallible session/decode steps of one iteration are abstracted as a script
`Nat → IterOutcome` giving, per iteration index, either the decoded sample
codes or the message of the raised exception.
-/

/-- Value of an ASCII decimal digit byte; `none` when the byte is not a
digit, modelling Python `int(chr(b))` raising `ValueError`. -/
def digitVal (c : Nat) : Option Nat :=
  if 48 ≤ c ∧ c ≤ 57 then some (c - 48) else none

/-- TEK IEEE-488.2 header stripping, `acquire_pyvisa.py` lines 134–139:
`if waveform_bytes[0:1] == b"#": len_digits = int(chr(waveform_bytes[1]));
header_len = 2 + len_digits; waveform_bytes = waveform_bytes[header_len:-1]`.
`none` models an uncaught in-loop exception (`IndexError` on a 1-byte
buffer, or `ValueError` when byte 1 is not an ASCII digit); byte 35 is
`"#"`.  In Python `b[h:-1]` is `b.drop h` followed by `dropLast`; `b[1]`
raises `IndexError` exactly when the buffer has fewer than two bytes. -/
def tekStrip (b : List Nat) : Option (List Nat) :=
  if b.take 1 = [35] then
    match b with
    | _ :: c :: _ =>
      match digitVal c with
      | none => none
      | some d => some ((b.drop (2 + d)).dropLast)
    | _ => none
  else some b

/-- Numeric value of a big-endian list of ASCII decimal digit bytes. -/
def decDigitsVal (l : List Nat) : Nat :=
  l.foldl (fun acc c => acc * 10 + (c - 48)) 0

/-- Python `bytes.find` for a single target byte: index of its first
occurrence, `-1` when absent (`acquire_ag.py` line 116). -/
def pyFind : List Nat → Nat → Int
  | [], _ => -1
  | c :: rest, t =>
    if c = t then 0
    else if pyFind rest t = -1 then -1 else pyFind rest t + 1

/-- Python slicing `b[i:]`, including the clamping of negative start
indices. -/
def pySliceFrom (b : List Nat) (i : Int) : List Nat :=
  if i < 0 then b.drop ((b.length : Int) + i).toNat else b.drop i.toNat

/-- AGILENT payload extraction, `acquire_ag.py` lines 116–117:
`header_end_index = waveform_bytes.find(b"\n") + 1` followed by
`waveform_bytes[header_end_index:]`; byte 10 is the newline. -/
def agDecode (b : List Nat) : List Nat :=
  pySliceFrom b (pyFind b 10 + 1)

/-- Python slicing `b[:i]`, including the clamping of negative stop
indices. -/
def pySliceTo (b : List Int) (i : Int) : List Int :=
  if i < 0 then b.take ((b.length : Int) + i).toNat else b.take i.toNat

/-- Sample-count reconciliation, `acquire_pyvisa.py` lines 150–152:
`if len(raw_waveform) != num_points: raw_waveform = raw_waveform[:num_points]`.
A total function: the source raises nothing here. -/
def reconcile (raw : List Int) (num_points : Int) : List Int :=
  if (raw.length : Int) ≠ num_points then pySliceTo raw num_points else raw

/-- Signed reinterpretation of one byte, as in
`np.frombuffer(-, dtype=np.int8)`. -/
def toInt8 (b : Nat) : Int :=
  if b % 256 < 128 then (b % 256 : Int) else (b % 256 : Int) - 256

/-- Full TEK-dialect decode path of `acquire_pyvisa.py`: header stripping,
int8 reinterpretation, then sample-count reconciliation. -/
def tekDecode (b : List Nat) (num_points : Int) : Option (List Int) :=
  (tekStrip b).map (fun payload => reconcile (payload.map toInt8) num_points)

/-- TEK waveform preamble, queried once in `acquire.py` lines 61–66 /
`acquire_pyvisa.py` lines 83–88; float fields idealised as rationals. -/
structure Preamble where
  num_points : Int
  x_increment : ℚ
  x_origin : ℚ
  y_multiplier : ℚ
  y_offset : ℚ
  y_zero : ℚ
deriving DecidableEq

/-- AGILENT preamble fields, parsed once in `acquire_ag.py` lines 75–79. -/
structure AgPre where
  x_increment : ℚ
  x_origin : ℚ
  y_increment : ℚ
  y_origin : ℚ
  y_reference : Int
deriving DecidableEq

/-- `acquire.py` line 113 / `acquire_pyvisa.py` line 154:
`voltages = (raw_waveform - y_zero + y_offset) * y_multiplier`. -/
def tekVoltages (p : Preamble) (codes : List Int) : List ℚ :=
  codes.map (fun (c : Int) => ((c : ℚ) - p.y_zero + p.y_offset) * p.y_multiplier)

/-- `acquire_ag.py` line 119:
`voltages = (raw_waveform - y_reference) * y_increment + y_origin`. -/
def agVoltages (q : AgPre) (codes : List Int) : List ℚ :=
  codes.map (fun (c : Int) => ((c : ℚ) - (q.y_reference : ℚ)) * q.y_increment + q.y_origin)

/-- `times = np.arange(0, n) * x_increment + x_origin`
(`acquire.py` line 114, `acquire_ag.py` line 120). -/
def timesOf (xinc xorg : ℚ) (n : Nat) : List ℚ :=
  (List.range n).map (fun (i : Nat) => (i : ℚ) * xinc + xorg)

/-- Outcome of the fallible steps (trigger, completion wait, fetch, decode,
publish) of one loop iteration as seen by the `try` block: success carries
the decoded sample codes, failure carries the exception message. -/
inductive IterOutcome where
  | ok (codes : List Int)
  | err (msg : String)
deriving DecidableEq

/-- Observable events of one run: the one-time preamble query, per-iteration
publishes (plot update + CSV write), per-iteration failure reports
(`logging.error` in the except handlers), and session close. -/
inductive Event where
  | preambleQueried
  | published (i : Nat)
  | failureReported (i : Nat)
  | closed
deriving DecidableEq

def isPublishEv : Event → Bool
  | Event.published _ => true
  | _ => false

def isFailureEv : Event → Bool
  | Event.failureReported _ => true
  | _ => false

def isAttemptEv : Event → Bool
  | Event.published _ => true
  | Event.failureReported _ => true
  | _ => false

def isClosedEv : Event → Bool
  | Event.closed => true
  | _ => false

def isPreambleEv : Event → Bool
  | Event.preambleQueried => true
  | _ => false

def isOkOutcome : IterOutcome → Bool
  | IterOutcome.ok _ => true
  | _ => false

/-- Does the pattern list occur at the head of the second list. -/
def startsWithL : List Char → List Char → Bool
  | [], _ => true
  | _ :: _, [] => false
  | a :: as, b :: bs => a = b && startsWithL as bs

/-- Contiguous-sublist test on character lists. -/
def containsL (pat : List Char) : List Char → Bool
  | [] => startsWithL pat []
  | c :: rest => startsWithL pat (c :: rest) || containsL pat rest

/-- `pyContains msg sub` models Python `sub in msg`, the classification
test `if "Timeout" in str(e)` of `acquire.py` line 141. -/
def pyContains (msg sub : String) : Bool := containsL sub.data msg.data

/-- One published capture: index, scaled voltages, time axis. -/
structure CaptureResult where
  index : Nat
  voltages : List ℚ
  times : List ℚ
deriving DecidableEq

/-- The `CaptureResult` published by a successful TEK-loop iteration. -/
def tekIter (p : Preamble) (i : Nat) (codes : List Int) : CaptureResult :=
  { index := i, voltages := tekVoltages p codes,
    times := timesOf p.x_increment p.x_origin codes.length }

/-- The `CaptureResult` published by a successful AGILENT-loop iteration. -/
def agIter (q : AgPre) (i : Nat) (codes : List Int) : CaptureResult :=
  { index := i, voltages := agVoltages q codes,
    times := timesOf q.x_increment q.x_origin codes.length }

/-- The `for i in range(NUM_CAPTURES)` loop of `acquire.py` lines 90–148
(identical policy in `acquire_pyvisa.py` lines 110–181): on success the
iteration publishes a capture and the loop continues; on an exception the
error is reported, and if its message contains `"Timeout"` the loop
`break`s (falling through to the cleanup `scope.close()`), otherwise it
`continue`s.  The single close at the end of the run is the cleanup
`scope.close()` after the loop.  Arguments: iteration index, remaining
iterations (fuel). -/
def tekLoop (p : Preamble) (script : Nat → IterOutcome) :
    Nat → Nat → List Event × List CaptureResult
  | _, 0 => ([Event.closed], [])
  | i, fuel + 1 =>
    match script i with
    | IterOutcome.ok codes =>
      let r := tekLoop p script (i + 1) fuel
      (Event.published i :: r.1, tekIter p i codes :: r.2)
    | IterOutcome.err msg =>
      if pyContains msg "Timeout" then ([Event.failureReported i, Event.closed], [])
      else
        let r := tekLoop p script (i + 1) fuel
        (Event.failureReported i :: r.1, r.2)

def tekRun (p : Preamble) (script : Nat → IterOutcome) (n : Nat) :
    List Event × List CaptureResult :=
  tekLoop p script 0 n

/-- A TEK run including the one-time preamble query of the setup stage. -/
def fullTekRun (p : Preamble) (script : Nat → IterOutcome) (n : Nat) :
    List Event × List CaptureResult :=
  (Event.preambleQueried :: (tekRun p script n).1, (tekRun p script n).2)

/-- The timer-driven `update()` loop of `acquire_ag.py` lines 90–150: when
the counter reaches `NUM_CAPTURES` the timer is stopped and the session
closed; on a successful iteration a capture is published and the counter
advances; on any exception the error is reported, the timer is stopped and
the session closed immediately (lines 137–140) — there is no
continue-on-error path.  Fuel bounds the number of timer callbacks. -/
def agLoop (q : AgPre) (script : Nat → IterOutcome) (n : Nat) :
    Nat → Nat → List Event × List CaptureResult
  | _, 0 => ([], [])
  | i, fuel + 1 =>
    if n ≤ i then ([Event.closed], [])
    else
      match script i with
      | IterOutcome.ok codes =>
        let r := agLoop q script n (i + 1) fuel
        (Event.published i :: r.1, agIter q i codes :: r.2)
      | IterOutcome.err _ => ([Event.failureReported i, Event.closed], [])

def agRun (q : AgPre) (script : Nat → IterOutcome) (n : Nat) :
    List Event × List CaptureResult :=
  agLoop q script n 0 (n + 1)

/-- An AGILENT run including the one-time preamble query of the setup
stage (`:WAVEFORM:PREAMBLE?`, `acquire_ag.py` line 71). -/
def fullAgRun (q : AgPre) (script : Nat → IterOutcome) (n : Nat) :
    List Event × List CaptureResult :=
  (Event.preambleQueried :: (agRun q script n).1, (agRun q script n).2)

/-- Value of an ASCII decimal digit character. -/
def chDigit (c : Char) : Option Nat :=
  if 48 ≤ c.toNat ∧ c.toNat ≤ 57 then some (c.toNat - 48) else none

def decDigitsAux : List Char → Nat → Option Nat
  | [], acc => some acc
  | c :: rest, acc =>
    match chDigit c with
    | none => none
    | some d => decDigitsAux rest (acc * 10 + d)

/-- Python `int(s)` on an optionally minus-prefixed ASCII decimal string;
`none` models the `ValueError` raised on a non-numeric response. -/
def pyInt (s : String) : Option Int :=
  match s.data with
  | [] => none
  | '-' :: rest =>
    if rest.isEmpty then none else (decDigitsAux rest 0).map (fun m => -(m : Int))
  | l => (decDigitsAux l 0).map (fun m => (m : Int))

/-- Configuration stage of `acquire.py` lines 61–66 followed by the capture
loop: `num_points = int(scope.ask("WFMPRE:NR_PT?"))`.  A parse failure
raises, is caught by the handler at line 83 which closes the session and
exits before the loop; a successfully parsed value is accepted as-is — the
source performs no range or finiteness validation — and the loop runs. -/
def setupThenRun (resp : String) (p : Preamble) (script : Nat → IterOutcome)
    (n : Nat) : Option Int × List Event :=
  match pyInt resp with
  | none => (none, [Event.preambleQueried, Event.closed])
  | some np => (some np, (fullTekRun p script n).1)

/-- Default preamble for concrete runs. -/
def p1 : Preamble := ⟨2500, 1, 0, 1, 0, 0⟩

/-- Default AGILENT preamble for concrete runs. -/
def q1 : AgPre := ⟨1, 0, 1, 0, 0⟩

/-- The preamble of the TEK scaling scenario in the spec. -/
def pScen : Preamble := ⟨4, 1/1000000000, 0, 1/100, 0, 0⟩

/-- AGILENT preamble with nonzero `y_origin`, for the dialect contrast. -/
def qScen : AgPre := ⟨1, 0, 1/100, 5, 0⟩

/-- TEK preamble with the same numeric fields as `qScen` read TEK-style. -/
def pOff : Preamble := ⟨1, 1, 0, 1/100, 5, 0⟩

/-- Session stub that always succeeds. -/
def okScript : Nat → IterOutcome := fun _ => IterOutcome.ok [1]

/-- Session stub failing with a transport error on iteration 3 (index 2). -/
def trAt3 : Nat → IterOutcome := fun i =>
  if i = 2 then IterOutcome.err "USB transport write failure" else IterOutcome.ok [1]

/-- Session stub failing with a timeout on iteration 2 (index 1). -/
def tmoAt2 : Nat → IterOutcome := fun i =>
  if i = 1 then IterOutcome.err "Timeout expired before read completed"
  else IterOutcome.ok [1]

/-! ### Frame decoder lemmas -/

lemma pyFind_not_mem {b : List Nat} {t : Nat} (h : t ∉ b) : pyFind b t = -1 := by
  induction b with
  | nil => rfl
  | cons c rest ih =>
    simp only [List.mem_cons, not_or] at h
    obtain ⟨h1, h2⟩ := h
    have hcne : ¬ c = t := fun e => h1 e.symm
    simp [pyFind, ih h2, hcne]

lemma pyFind_first (l1 l2 : List Nat) (t : Nat) (h : t ∉ l1) :
    pyFind (l1 ++ t :: l2) t = (l1.length : Int) := by
  induction l1 with
  | nil => simp [pyFind]
  | cons c rest ih =>
    simp only [List.mem_cons, not_or] at h
    obtain ⟨h1, h2⟩ := h
    have hr := ih h2
    have hcne : ¬ c = t := fun e => h1 e.symm
    show (if c = t then 0
      else if pyFind (rest ++ t :: l2) t = -1 then -1
      else pyFind (rest ++ t :: l2) t + 1) = ((c :: rest).length : Int)
    rw [if_neg hcne, hr, if_neg (by omega : ¬(rest.length : Int) = -1)]
    simp only [List.length_cons]
    push_cast
    ring

/-! ### Theorems for the claims -/

/-- C2 (confirmed): TEK frame decoding round-trip.  Every buffer built as
the marker byte 35 ("#"), one ASCII digit byte of value `d`, `d` ASCII decimal
digit bytes encoding a length `L`, `L` payload bytes, and one trailing
terminator byte of arbitrary content, is stripped to exactly the payload:
the code computes header length `2 + d` and keeps the span
`[headerLen, headerLen + L)`. -/
theorem tek_frame_roundtrip (dchar d L term : Nat) (lenfield payload : List Nat)
    (hd : digitVal dchar = some d)
    (hdig : ∀ c ∈ lenfield, (digitVal c).isSome)
    (hlen : lenfield.length = d)
    (hL : decDigitsVal lenfield = L)
    (hpay : payload.length = L) :
    tekStrip (35 :: dchar :: (lenfield ++ (payload ++ [term]))) = some payload := by
  have htake : (35 :: dchar :: (lenfield ++ (payload ++ [term]))).take 1 = [35] := rfl
  unfold tekStrip
  rw [if_pos htake]
  simp only [hd]
  rw [show 2 + d = d + 1 + 1 by omega]
  rw [List.drop_succ_cons, List.drop_succ_cons, ← hlen, List.drop_left]
  rw [List.dropLast_concat]

/-- Witness for C2 at the scenario of the spec: `b"#14" + b"\x01\x02\x03\x04" + b"\n"`. -/
theorem tek_frame_roundtrip_witness :
    tekStrip (35 :: 49 :: ([52] ++ ([1, 2, 3, 4] ++ [10]))) = some [1, 2, 3, 4] :=
  tek_frame_roundtrip 49 1 4 10 [52] [1, 2, 3, 4]
    (by decide) (by decide) (by decide) (by decide) (by decide)

/-- C3 (corrected): sample-count reconciliation is truncate-only and
total.  `reconcile raw n` always equals `raw.take n`: a payload longer
than `num_points` is truncated to exactly the first `num_points` samples,
a shorter payload is returned unchanged (still short), and no padding ever
occurs — in particular no error is raised on a short payload. -/
theorem reconcile_truncate_only (raw : List Int) (n : Nat) :
    reconcile raw (n : Int) = raw.take n ∧
    (reconcile raw (n : Int)).length = min n raw.length := by
  have hmain : reconcile raw (n : Int) = raw.take n := by
    rw [reconcile]
    by_cases hc : (raw.length : Int) = (n : Int)
    · rw [if_neg (by simpa using hc)]
      have : raw.length = n := by exact_mod_cast hc
      rw [← this, List.take_length]
    · rw [if_pos (by simpa using hc), pySliceTo,
        if_neg (by omega : ¬(n : Int) < 0)]
      simp
  exact ⟨hmain, by rw [hmain, List.length_take]⟩

/-- Counterexample for C3: a decoded payload of length 2 with
`num_points = 4` does not fail — the full decode returns the short list
`[1, 2]` unchanged, with no `FramingError` (the source has no failure path
in the reconciliation step). -/
theorem reconcile_short_no_error :
    tekDecode [35, 49, 50, 1, 2, 10] 4 = some [1, 2] ∧ (2 : Nat) < 4 := by decide

/-- C6 (confirmed): AGILENT frame decoding round-trip.  For a buffer built
as a newline-free header, the newline byte, then the payload, the decoder
treats everything up to and including the first newline as header and
returns exactly the payload. -/
theorem agilent_frame_roundtrip (header payload : List Nat) (h : 10 ∉ header) :
    agDecode (header ++ 10 :: payload) = payload := by
  rw [agDecode, pyFind_first header payload 10 h, pySliceFrom,
    if_neg (by omega : ¬((header.length : Int) + 1) < 0)]
  have h1 : ((header.length : Int) + 1).toNat = header.length + 1 := by omega
  have h2 : header ++ 10 :: payload = (header ++ [10]) ++ payload := by simp
  have h3 : header.length + 1 = (header ++ [10]).length := by simp
  rw [h1, h2, h3, List.drop_left]

/-- Witness for C6 at a concrete framed buffer. -/
theorem agilent_frame_roundtrip_witness :
    agDecode ([72, 68] ++ 10 :: [1, 2, 3]) = [1, 2, 3] :=
  agilent_frame_roundtrip [72, 68] [1, 2, 3] (by decide)

/-- C10 (confirmed): on a buffer with no newline byte, `bytes.find`
returns `-1`, the computed header end index is `0`, and the whole buffer
is kept as payload — no error, no bytes discarded. -/
theorem agilent_no_newline (b : List Nat) (h : 10 ∉ b) :
    pyFind b 10 = -1 ∧ pyFind b 10 + 1 = 0 ∧ agDecode b = b := by
  have hf := pyFind_not_mem h
  refine ⟨hf, by rw [hf]; ring, ?_⟩
  rw [agDecode, hf]
  norm_num [pySliceFrom]

/-- Witness for C10 at a concrete newline-free buffer. -/
theorem agilent_no_newline_witness :
    pyFind [1, 2, 3] 10 = -1 ∧ pyFind [1, 2, 3] 10 + 1 = 0 ∧
    agDecode [1, 2, 3] = [1, 2, 3] :=
  agilent_no_newline [1, 2, 3] (by decide)

lemma getElem?_lt_length {α : Type} {l : List α} {i : Nat} {c : α}
    (h : l[i]? = some c) : i < l.length := by
  by_contra hni
  rw [List.getElem?_eq_none (by omega)] at h
  cases h

/-- C4 (confirmed): TEK-dialect scaling.  For every preamble and decoded
code sequence, `voltage[i] = (code[i] - y_zero + y_offset) * y_multiplier`
and `time[i] = i * x_increment + x_origin` at every index, with the float
arithmetic idealised as exact rational arithmetic. -/
theorem tek_scaling_formula (p : Preamble) (codes : List Int) (i : Nat) (c : Int)
    (h : codes[i]? = some c) :
    (tekVoltages p codes)[i]? = some (((c : ℚ) - p.y_zero + p.y_offset) * p.y_multiplier) ∧
    (timesOf p.x_increment p.x_origin codes.length)[i]?
      = some ((i : ℚ) * p.x_increment + p.x_origin) := by
  have hi : i < codes.length := getElem?_lt_length h
  constructor
  · rw [tekVoltages, List.getElem?_map, h, Option.map_some']
  · rw [timesOf, List.getElem?_map, List.getElem?_range hi, Option.map_some']

/-- Witness for C4 at the scenario of the spec: `sampleCount = 4`,
`timeIncrement = 1e-9`, `voltageScale = 0.01`, zero offsets, codes
`[10, -10, 0, 127]` give voltages `[0.10, -0.10, 0.00, 1.27]` and times
`[0, 1e-9, 2e-9, 3e-9]`. -/
theorem tek_scaling_witness :
    (([10, -10, 0, 127] : List Int)[3]? = some 127) ∧
    tekVoltages pScen [10, -10, 0, 127] = [1/10, -1/10, 0, 127/100] ∧
    timesOf pScen.x_increment pScen.x_origin 4
      = [0, 1/1000000000, 2/1000000000, 3/1000000000] ∧
    ((tekVoltages pScen [10, -10, 0, 127])[3]?
        = some ((((127 : Int) : ℚ) - pScen.y_zero + pScen.y_offset) * pScen.y_multiplier) ∧
      (timesOf pScen.x_increment pScen.x_origin ([10, -10, 0, 127] : List Int).length)[3]?
        = some (((3 : Nat) : ℚ) * pScen.x_increment + pScen.x_origin)) :=
  ⟨by decide, by norm_num [tekVoltages, pScen],
    by norm_num [timesOf, pScen, List.range_succ],
    tek_scaling_formula pScen [10, -10, 0, 127] 3 127 (by decide)⟩

/-- C5 (confirmed): AGILENT-dialect scaling.  For every preamble and
decoded code sequence, `voltage[i] = (code[i] - y_reference) * y_increment
+ y_origin` at every index: the offset term `y_origin` is added after the
multiplication by `y_increment`, unlike the TEK formula. -/
theorem agilent_scaling_formula (q : AgPre) (codes : List Int) (i : Nat) (c : Int)
    (h : codes[i]? = some c) :
    (agVoltages q codes)[i]?
      = some (((c : ℚ) - (q.y_reference : ℚ)) * q.y_increment + q.y_origin) := by
  rw [agVoltages, List.getElem?_map, h, Option.map_some']

/-- Witness for C5: concrete AGILENT scaling, and the numeric
non-interchangeability of the two dialect formulas on the same numeric
fields (`y_increment`/`y_multiplier` = 0.01, offset 5, code 10: AGILENT
gives 5.1 V, TEK gives 0.15 V). -/
theorem agilent_scaling_witness :
    (([10] : List Int)[0]? = some 10) ∧
    agVoltages qScen [10] = [51/10] ∧
    tekVoltages pOff [10] = [3/20] ∧
    agVoltages qScen [10] ≠ tekVoltages pOff [10] ∧
    ((agVoltages qScen [10])[0]?
      = some ((((10 : Int) : ℚ) - (qScen.y_reference : ℚ)) * qScen.y_increment + qScen.y_origin)) :=
  ⟨by decide, by norm_num [agVoltages, qScen], by norm_num [tekVoltages, pOff],
    by norm_num [agVoltages, tekVoltages, qScen, pOff],
    agilent_scaling_formula qScen [10] 0 10 (by decide)⟩

/-! ### Acquisition-loop lemmas -/

lemma tekLoop_closed_count (p : Preamble) (script : Nat → IterOutcome) :
    ∀ fuel i, ((tekLoop p script i fuel).1.countP isClosedEv) = 1 := by
  intro fuel
  induction fuel with
  | zero => intro i; rfl
  | succ fuel ih =>
    intro i
    cases hs : script i with
    | ok codes => simp [tekLoop, hs, List.countP_cons, isClosedEv, ih]
    | err msg =>
      by_cases ht : pyContains msg "Timeout" = true
      · simp [tekLoop, hs, ht, List.countP_cons, isClosedEv]
      · simp [tekLoop, hs, ht, List.countP_cons, isClosedEv, ih]

lemma agLoop_closed_count (q : AgPre) (script : Nat → IterOutcome) (n : Nat) :
    ∀ fuel i, n - i < fuel → ((agLoop q script n i fuel).1.countP isClosedEv) = 1 := by
  intro fuel
  induction fuel with
  | zero => intro i h; omega
  | succ fuel ih =>
    intro i h
    by_cases hn : n ≤ i
    · simp [agLoop, hn, List.countP_cons, isClosedEv]
    · cases hs : script i with
      | ok codes =>
        have := ih (i + 1) (by omega)
        simp [agLoop, hn, hs, List.countP_cons, isClosedEv, this]
      | err msg => simp [agLoop, hn, hs, List.countP_cons, isClosedEv]

lemma tekLoop_no_preamble (p : Preamble) (script : Nat → IterOutcome) :
    ∀ fuel i, ((tekLoop p script i fuel).1.countP isPreambleEv) = 0 := by
  intro fuel
  induction fuel with
  | zero => intro i; rfl
  | succ fuel ih =>
    intro i
    cases hs : script i with
    | ok codes => simp [tekLoop, hs, List.countP_cons, isPreambleEv, ih]
    | err msg =>
      by_cases ht : pyContains msg "Timeout" = true
      · simp [tekLoop, hs, ht, List.countP_cons, isPreambleEv]
      · simp [tekLoop, hs, ht, List.countP_cons, isPreambleEv, ih]

lemma agLoop_no_preamble (q : AgPre) (script : Nat → IterOutcome) (n : Nat) :
    ∀ fuel i, ((agLoop q script n i fuel).1.countP isPreambleEv) = 0 := by
  intro fuel
  induction fuel with
  | zero => intro i; rfl
  | succ fuel ih =>
    intro i
    by_cases hn : n ≤ i
    · simp [agLoop, hn, List.countP_cons, isPreambleEv]
    · cases hs : script i with
      | ok codes => simp [agLoop, hn, hs, List.countP_cons, isPreambleEv, ih]
      | err msg => simp [agLoop, hn, hs, List.countP_cons, isPreambleEv]

lemma tekLoop_captures (p : Preamble) (script : Nat → IterOutcome) :
    ∀ fuel i r, r ∈ (tekLoop p script i fuel).2 →
      ∃ codes, script r.index = IterOutcome.ok codes ∧
        r.voltages = tekVoltages p codes ∧
        r.times = timesOf p.x_increment p.x_origin codes.length := by
  intro fuel
  induction fuel with
  | zero => intro i r hr; simp [tekLoop] at hr
  | succ fuel ih =>
    intro i r hr
    cases hs : script i with
    | ok codes =>
      simp only [tekLoop, hs] at hr
      rcases List.mem_cons.mp hr with h1 | h1
      · subst h1
        exact ⟨codes, hs, rfl, rfl⟩
      · exact ih (i + 1) r h1
    | err msg =>
      by_cases ht : pyContains msg "Timeout" = true
      · simp [tekLoop, hs, ht] at hr
      · simp only [tekLoop, hs, ht, if_false, Bool.false_eq_true, ite_false] at hr
        exact ih (i + 1) r hr

lemma agLoop_captures (q : AgPre) (script : Nat → IterOutcome) (n : Nat) :
    ∀ fuel i r, r ∈ (agLoop q script n i fuel).2 →
      ∃ codes, script r.index = IterOutcome.ok codes ∧
        r.voltages = agVoltages q codes ∧
        r.times = timesOf q.x_increment q.x_origin codes.length := by
  intro fuel
  induction fuel with
  | zero => intro i r hr; simp [agLoop] at hr
  | succ fuel ih =>
    intro i r hr
    by_cases hn : n ≤ i
    · simp [agLoop, hn] at hr
    · cases hs : script i with
      | ok codes =>
        simp only [agLoop, hn, if_false, hs] at hr
        rcases List.mem_cons.mp hr with h1 | h1
        · subst h1
          exact ⟨codes, hs, rfl, rfl⟩
        · exact ih (i + 1) r h1
      | err msg => simp [agLoop, hn, hs] at hr

lemma tekLoop_counts (p : Preamble) (script : Nat → IterOutcome)
    (hnt : ∀ i msg, script i = IterOutcome.err msg → pyContains msg "Timeout" = false) :
    ∀ fuel i,
      (tekLoop p script i fuel).1.countP isAttemptEv = fuel ∧
      (tekLoop p script i fuel).2.length
        = (List.range' i fuel).countP (fun j => isOkOutcome (script j)) := by
  intro fuel
  induction fuel with
  | zero => intro i; exact ⟨rfl, rfl⟩
  | succ fuel ih =>
    intro i
    have hih := ih (i + 1)
    cases hs : script i with
    | ok codes =>
      constructor
      · simp [tekLoop, hs, List.countP_cons, isAttemptEv, hih.1]
      · simp [tekLoop, hs, List.range'_succ, List.countP_cons, isOkOutcome, hih.2]
    | err msg =>
      have ht := hnt i msg hs
      constructor
      · simp [tekLoop, hs, ht, List.countP_cons, isAttemptEv, hih.1]
      · simp [tekLoop, hs, ht, List.range'_succ, List.countP_cons, isOkOutcome, hih.2]

/-- C1 (corrected / amended): per-iteration failure policy.  In the TEK
for-loop scripts (`acquire.py`, `acquire_pyvisa.py`) any error whose
message lacks `"Timeout"` is reported and the loop continues — a run whose
script never raises a timeout attempts all `n` iterations and publishes
one capture per successful iteration; a transport failure on iteration 3
of 5 still attempts all 5 and publishes 4 with exactly 1 failure report;
an error containing `"Timeout"` aborts the run immediately.  In the
AGILENT callback loop (`acquire_ag.py`), by contrast, any error — timeout
or not — stops the timer and closes the session immediately. -/
theorem failure_policy_amended :
    (∀ (p : Preamble) (script : Nat → IterOutcome) (n : Nat),
      (∀ i msg, script i = IterOutcome.err msg → pyContains msg "Timeout" = false) →
      (tekRun p script n).1.countP isAttemptEv = n ∧
      (tekRun p script n).2.length
        = (List.range n).countP (fun j => isOkOutcome (script j))) ∧
    (tekRun p1 trAt3 5).1 = [Event.published 0, Event.published 1,
      Event.failureReported 2, Event.published 3, Event.published 4, Event.closed] ∧
    (tekRun p1 trAt3 5).2.length = 4 ∧
    (tekRun p1 trAt3 5).1.countP isFailureEv = 1 ∧
    (tekRun p1 tmoAt2 5).1
      = [Event.published 0, Event.failureReported 1, Event.closed] ∧
    (tekRun p1 tmoAt2 5).2.length = 1 ∧
    (agRun q1 trAt3 5).1
      = [Event.published 0, Event.published 1, Event.failureReported 2, Event.closed] := by
  refine ⟨?_, by decide, by decide, by decide, by decide, by decide, by decide⟩
  intro p script n hnt
  have h := tekLoop_counts p script hnt n 0
  refine ⟨h.1, ?_⟩
  show (tekLoop p script 0 n).2.length
    = (List.range n).countP (fun j => isOkOutcome (script j))
  rw [List.range_eq_range' n]
  exact h.2

/-- Counterexample for C1 as stated: in the `acquire_ag.py` loop a
transport (non-timeout) failure on iteration 3 of 5 does not lead to 5
attempted iterations and 4 published results — only 3 iterations are
attempted and only 2 captures are published, because the except handler
stops the timer and closes the session on any error. -/
theorem failure_policy_counterexample :
    (agRun q1 trAt3 5).1.countP isAttemptEv = 3 ∧
    (agRun q1 trAt3 5).2.length = 2 ∧
    ¬ ((agRun q1 trAt3 5).1.countP isAttemptEv = 5 ∧
       (agRun q1 trAt3 5).2.length = 4) := by decide

/-- Witness for the amended universal part of C1 at a concrete timeout-free
script. -/
theorem failure_policy_amended_witness :
    (tekRun p1 okScript 3).1.countP isAttemptEv = 3 ∧
    (tekRun p1 okScript 3).2.length
      = (List.range 3).countP (fun j => isOkOutcome (okScript j)) :=
  failure_policy_amended.1 p1 okScript 3 (fun i msg h => by simp [okScript] at h)

/-- C7 (confirmed): for every run of either acquisition loop that reaches
a terminal state (all iterations attempted, or aborted), the session close
appears exactly once in the event trace of the run; in particular a timeout on
iteration 2 of 5 stops the TEK run after iteration 2 with exactly 1
published capture and exactly one close. -/
theorem session_close_exactly_once :
    (∀ (p : Preamble) (script : Nat → IterOutcome) (n : Nat),
      (tekRun p script n).1.countP isClosedEv = 1) ∧
    (∀ (q : AgPre) (script : Nat → IterOutcome) (n : Nat),
      (agRun q script n).1.countP isClosedEv = 1) ∧
    (tekRun p1 tmoAt2 5).2.length = 1 ∧
    (tekRun p1 tmoAt2 5).1.countP isClosedEv = 1 := by
  refine ⟨?_, ?_, by decide, by decide⟩
  · intro p script n
    exact tekLoop_closed_count p script n 0
  · intro q script n
    exact agLoop_closed_count q script n (n + 1) 0 (by omega)

/-- C9 (confirmed): preamble stability.  In every run the preamble query
event occurs exactly once, at the head of the trace (before any capture),
and the voltages and times of every published capture are computed from the one
preamble fetched at setup — the loop bodies never re-fetch or modify it. -/
theorem preamble_stability (p : Preamble) (q : AgPre)
    (script : Nat → IterOutcome) (n : Nat) :
    (fullTekRun p script n).1.countP isPreambleEv = 1 ∧
    (fullAgRun q script n).1.countP isPreambleEv = 1 ∧
    (∃ t, (fullTekRun p script n).1 = Event.preambleQueried :: t ∧
      t.countP isPreambleEv = 0) ∧
    (∃ t, (fullAgRun q script n).1 = Event.preambleQueried :: t ∧
      t.countP isPreambleEv = 0) ∧
    (∀ r, r ∈ (fullTekRun p script n).2 → ∃ codes,
      script r.index = IterOutcome.ok codes ∧ r.voltages = tekVoltages p codes ∧
      r.times = timesOf p.x_increment p.x_origin codes.length) ∧
    (∀ r, r ∈ (fullAgRun q script n).2 → ∃ codes,
      script r.index = IterOutcome.ok codes ∧ r.voltages = agVoltages q codes ∧
      r.times = timesOf q.x_increment q.x_origin codes.length) := by
  refine ⟨?_, ?_, ?_, ?_, ?_, ?_⟩
  · simp [fullTekRun, List.countP_cons, isPreambleEv, tekRun,
      tekLoop_no_preamble p script n 0]
  · simp [fullAgRun, List.countP_cons, isPreambleEv, agRun,
      agLoop_no_preamble q script n (n + 1) 0]
  · exact ⟨(tekRun p script n).1, rfl, tekLoop_no_preamble p script n 0⟩
  · exact ⟨(agRun q script n).1, rfl, agLoop_no_preamble q script n (n + 1) 0⟩
  · intro r hr
    exact tekLoop_captures p script n 0 r hr
  · intro r hr
    exact agLoop_captures q script n (n + 1) 0 r hr

/-- Witness for C9 at a concrete one-iteration run of each loop. -/
theorem preamble_stability_witness :
    (∃ codes, okScript ((tekIter pScen 0 [1]).index) = IterOutcome.ok codes ∧
      (tekIter pScen 0 [1]).voltages = tekVoltages pScen codes ∧
      (tekIter pScen 0 [1]).times
        = timesOf pScen.x_increment pScen.x_origin codes.length) ∧
    (∃ codes, okScript ((agIter qScen 0 [1]).index) = IterOutcome.ok codes ∧
      (agIter qScen 0 [1]).voltages = agVoltages qScen codes ∧
      (agIter qScen 0 [1]).times
        = timesOf qScen.x_increment qScen.x_origin codes.length) :=
  ⟨(preamble_stability pScen qScen okScript 1).2.2.2.2.1 (tekIter pScen 0 [1])
      (List.Mem.head _),
    (preamble_stability pScen qScen okScript 1).2.2.2.2.2 (agIter qScen 0 [1])
      (List.Mem.head _)⟩

/-- C8 (corrected / amended): the configuration stage performs no
validation of preamble values.  A response that fails to parse as a number
raises, closes the session and exits before the loop; any successfully
parsed value — including `sampleCount ≤ 0` — is accepted unchanged and the
loop starts. -/
theorem setup_no_validation (resp : String) (p : Preamble)
    (script : Nat → IterOutcome) (n : Nat) :
    (pyInt resp = none →
      setupThenRun resp p script n = (none, [Event.preambleQueried, Event.closed])) ∧
    (∀ np, pyInt resp = some np →
      setupThenRun resp p script n = (some np, (fullTekRun p script n).1)) := by
  constructor
  · intro h
    simp [setupThenRun, h]
  · intro np h
    simp [setupThenRun, h]

/-- Counterexample for C8 as stated: the response `"-5"` parses to the
invalid sample count `-5 ≤ 0`, yet setup succeeds and the loop runs all 3
iterations — no `ConfigurationError`, no abort before the loop. -/
theorem setup_validation_counterexample :
    (setupThenRun "-5" p1 okScript 3).1 = some (-5) ∧ ((-5 : Int) ≤ 0) ∧
    (setupThenRun "-5" p1 okScript 3).2.countP isAttemptEv = 3 ∧
    (setupThenRun "-5" p1 okScript 3).2
      = [Event.preambleQueried, Event.published 0, Event.published 1,
        Event.published 2, Event.closed] := by decide

/-- Witness for the amended claim of C8 at concrete responses. -/
theorem setup_no_validation_witness :
    setupThenRun "abc" p1 okScript 2 = (none, [Event.preambleQueried, Event.closed]) ∧
    setupThenRun "-5" p1 okScript 2 = (some (-5), (fullTekRun p1 okScript 2).1) :=
  ⟨(setup_no_validation "abc" p1 okScript 2).1 (by decide),
    (setup_no_validation "-5" p1 okScript 2).2 (-5) (by decide)⟩
